import Mathlib

/-!
Verification development for the taker runner core and the typini
configuration parser.

The typini definitions below are a shallow embedding of
src/typini/parser.py.  Python strings with integer positions become
List Char with Nat positions; raised exceptions become an Except error
channel; methods that mutate self.value become functions returning the
new value together with the position the method returns.

The runner protocol definitions (Parameters, Results, Status, the wire
codec, the status classifier, the supervisor and the environment
builder) embed the runner module, whose implementation file is not part
of the sources here: those definitions are modelled from the spec, as
their doc comments state, and checked against the behavior pinned down
by src/runners/test_runners.py.
-/

/-- Errors raised by the embedded Python code: ParseError carries a row,
a column and a message exactly as in parser.py; valueErr, typeErr and
keyErr model the builtin ValueError, TypeError and KeyError. -/
inductive PyErr : Type where
  | parseErr (row : Int) (col : Nat) (msg : String)
  | valueErr (msg : String)
  | typeErr (msg : String)
  | keyErr (key : String)
deriving DecidableEq, Repr

/-- True when the Except value is an error; used to state that an
operation fails without fixing the exact error payload. -/
def isErrB {ε α : Type} : Except ε α → Bool
  | .error _ => true
  | .ok _ => false

/-- Modelled from the spec: parseutils.py is not under src/.  Counts the
leading spaces of a character list; the building block of skip_spaces. -/
def count_spaces : List Char → Nat
  | [] => 0
  | c :: rest => if c = ' ' then count_spaces rest + 1 else 0

/-- Modelled from the spec: parseutils.skip_spaces is not under src/;
reconstructed from its uses in parser.py.  Returns the first position at
or after pos that does not hold a space. -/
def skip_spaces (line : List Char) (pos : Nat) : Nat :=
  pos + count_spaces (line.drop pos)

/-- Modelled from the spec: the word-character set of
parseutils.extract_word is not under src/; letters, digits, sign, dot
and underscore cover the words parser.py extracts (null, true, false,
numbers). -/
def is_word_char (c : Char) : Bool :=
  c.isAlphanum || c = '-' || c = '+' || c = '.' || c = '_'

/-- Modelled from the spec: parseutils.extract_word is not under src/;
reconstructed from its uses in parser.py and test_parser.py.  Skips
spaces, then takes the longest run of word characters; returns the
position just after the word together with the word itself. -/
def extract_word (line : List Char) (pos : Nat) : Nat × String :=
  let p := skip_spaces line pos
  let w := (line.drop p).takeWhile is_word_char
  (p + w.length, String.mk w)

/-- Modelled from the spec: parseutils.line_expect is not under src/;
reconstructed from its uses in parser.py.  Requires the character at pos
to be c and steps over it, otherwise raises a ParseError. -/
def line_expect (line : List Char) (pos : Nat) (c : Char) : Except PyErr Nat :=
  match line.get? pos with
  | some ch =>
      if ch = c then .ok (pos + 1)
      else .error (.parseErr (-1) pos "expected another character")
  | none => .error (.parseErr (-1) pos "unexpected end of line")

/-- Decimal digit-string value, or none when the list is empty or holds
a non-digit; the core of the model of the Python int constructor. -/
def digits_to_nat (cs : List Char) : Option Nat :=
  if cs = [] then none
  else if cs.all Char.isDigit then
    some (cs.foldl (fun acc c => acc * 10 + (c.toNat - 48)) 0)
  else none

/-- Model of the Python int constructor applied to a word: an optional
sign followed by decimal digits; anything else raises ValueError,
modelled as none. -/
def py_int (s : String) : Option Int :=
  match s.data with
  | '-' :: rest => (digits_to_nat rest).map (fun n => -(n : Int))
  | '+' :: rest => (digits_to_nat rest).map (fun n => (n : Int))
  | cs => (digits_to_nat cs).map (fun n => (n : Int))

/-- Modelled from the spec: names.py with INT_MIN is not under src/;
64-bit bounds are consistent with test_parser.py rejecting 27-digit
literals. -/
def INT_MIN : Int := -(2 ^ 63)

/-- Modelled from the spec: names.py with INT_MAX is not under src/;
64-bit bounds are consistent with test_parser.py rejecting 27-digit
literals. -/
def INT_MAX : Int := 2 ^ 63 - 1

/-- IntValue._do_load from parser.py (via NumberValue._do_load):
extracts a word, converts it with int (an unconvertible word raises
ValueError, which the except TypeError clause does not catch), validates
the range (an out-of-range value raises TypeError, caught and reraised
as ParseError), and returns the position after the word with the value. -/
def int_do_load (line : List Char) (pos : Nat) : Except PyErr (Nat × Int) :=
  let r := extract_word line pos
  match py_int r.2 with
  | none => .error (.valueErr r.2)
  | some v =>
      if INT_MIN ≤ v ∧ v ≤ INT_MAX then .ok (r.1, v)
      else .error (.parseErr (-1) r.1 "int expected")

/-- IntValue.load from parser.py (via VariableValue.load): the word null
sets the value to None and returns the position after it; otherwise
_do_load runs from the original position.  The loaded value is an
Option Int, none standing for Python None. -/
def int_load (line : List Char) (pos : Nat) : Except PyErr (Nat × Option Int) :=
  let r := extract_word line pos
  if r.2 = "null" then .ok (r.1, none)
  else
    match int_do_load line pos with
    | .error e => .error e
    | .ok (p, v) => .ok (p, some v)

/-- BoolValue._do_load from parser.py: extracts a word; on true or false
it sets the value and executes a bare return statement, so the returned
position is Python None, modelled as none; the return pos line after the
raise is unreachable.  Any other word raises ParseError. -/
def bool_do_load (line : List Char) (pos : Nat) :
    Except PyErr (Option Nat × Bool) :=
  let r := extract_word line pos
  if r.2 = "true" then .ok (none, true)
  else if r.2 = "false" then .ok (none, false)
  else .error (.parseErr (-1) r.1 "expected true or false")

/-- BoolValue.load from parser.py (via VariableValue.load): null returns
the position after the word and value None; otherwise _do_load runs, and
its returned position is an Option Nat because BoolValue._do_load
returns Python None on success. -/
def bool_load (line : List Char) (pos : Nat) :
    Except PyErr (Option Nat × Option Bool) :=
  let r := extract_word line pos
  if r.2 = "null" then .ok (some r.1, none)
  else
    match bool_do_load line pos with
    | .error e => .error e
    | .ok (p, b) => .ok (p, some b)

/-- IntValue.save from parser.py: validate checks the 64-bit range and
raises TypeError on an out-of-range value; None saves as null, any other
value as its decimal representation. -/
def int_save : Option Int → Except PyErr String
  | none => .ok "null"
  | some v =>
      if INT_MIN ≤ v ∧ v ≤ INT_MAX then .ok (toString v)
      else .error (.typeErr "IntValue contains an invalid value")

/-- The item loop of ArrayValue._do_save from parser.py specialised to
IntValue items: each item is saved followed by a comma and a space. -/
def array_items_text : List (Option Int) → Except PyErr String
  | [] => .ok ""
  | x :: xs =>
      match int_save x with
      | .error e => .error e
      | .ok s =>
          match array_items_text xs with
          | .error e => .error e
          | .ok rest => .ok (s ++ ", " ++ rest)

/-- ArrayValue._do_save from parser.py specialised to IntValue items:
res starts as the opening bracket, each item appends its text plus a
comma and a space, and the method returns res without its last two
characters, followed by the closing bracket. -/
def array_save_int (v : List (Option Int)) : Except PyErr String :=
  match array_items_text v with
  | .error e => .error e
  | .ok body =>
      let cs := '[' :: body.data
      .ok (String.mk (cs.take (cs.length - 2) ++ [']']))

/-- The loop of ArrayValue._do_load from parser.py specialised to
IntValue items: skip spaces; at end of line raise unterminated array; a
closing bracket ends the array returning the position after it; from the
second item on a comma is expected; then the item loads and its value is
appended.  The fuel argument bounds the iteration count; callers pass
more fuel than the line has characters, which the loop can never
exhaust because every iteration consumes at least one character. -/
def array_load_int_loop (line : List Char) :
    Nat → Nat → List (Option Int) → Except PyErr (Nat × List (Option Int))
  | 0, pos, _ => .error (.parseErr (-1) pos "unterminated array")
  | fuel + 1, pos, acc =>
      let pos1 := skip_spaces line pos
      match line.get? pos1 with
      | none => .error (.parseErr (-1) pos1 "unterminated array")
      | some c =>
          if c = ']' then .ok (pos1 + 1, acc)
          else
            match (if acc = [] then .ok pos1 else line_expect line pos1 ',') with
            | .error e => .error e
            | .ok pos2 =>
                match int_load line pos2 with
                | .error e => .error e
                | .ok (pos3, v) => array_load_int_loop line fuel pos3 (acc ++ [v])

/-- ArrayValue._do_load from parser.py specialised to IntValue items:
skips spaces, expects the opening bracket, then runs the item loop with
an empty value list. -/
def array_do_load_int (line : List Char) (pos : Nat) :
    Except PyErr (Nat × List (Option Int)) :=
  let pos1 := skip_spaces line pos
  match line_expect line pos1 '[' with
  | .error e => .error e
  | .ok pos2 => array_load_int_loop line (line.length + 1) pos2 []

/-- ArrayValue.load from parser.py (via VariableValue.load) specialised
to IntValue items: the word null yields value None, otherwise _do_load
parses the bracketed item list. -/
def array_load_int (line : List Char) (pos : Nat) :
    Except PyErr (Nat × Option (List (Option Int))) :=
  let r := extract_word line pos
  if r.2 = "null" then .ok (r.1, none)
  else
    match array_do_load_int line pos with
    | .error e => .error e
    | .ok (p, v) => .ok (p, some v)

/-- A Python value class as the TypeBinder sees it: identified by the
string its type_name method returns. -/
structure ValueClass : Type where
  type_name : String
deriving DecidableEq, Repr

/-- The result of TypeBinder.create_value: an instance of a bound scalar
class, or an ArrayValue over a bound item class. -/
inductive CreatedValue : Type where
  | scalar (cls : ValueClass)
  | array (item : ValueClass)
deriving DecidableEq, Repr

/-- The binding table of parser.py's TypeBinder.  In the source it is a
single class-level dict object (binding equals the empty dict in the
class body) that every instance reads and mutates through self.binding,
so the embedding threads one shared table through construction, binding
and lookup; the latest insertion for a name wins, as in a dict update. -/
abbrev Binding : Type := List (String × ValueClass)

/-- Dict lookup in the shared binding table: the most recent insertion
for the name is found first. -/
def binding_lookup : Binding → String → Option ValueClass
  | [], _ => none
  | (k, c) :: rest, key => if k = key then some c else binding_lookup rest key

/-- TypeBinder._bind_type from parser.py: inserts the class under its
type_name into the shared class-level dict. -/
def bind_type (b : Binding) (cls : ValueClass) : Binding :=
  (cls.type_name, cls) :: b

/-- TypeBinder.__init__ from parser.py: binds IntValue, FloatValue,
CharValue, BoolValue and StrValue, in that order, into the shared
class-level dict. -/
def init_type_binder (b : Binding) : Binding :=
  bind_type (bind_type (bind_type (bind_type (bind_type b
    ⟨"int"⟩) ⟨"float"⟩) ⟨"char"⟩) ⟨"bool"⟩) ⟨"string"⟩

/-- The array test of TypeBinder.create_value from parser.py: the type
string is longer than two characters and its last two characters are an
opening and a closing bracket. -/
def is_array_type_name (t : String) : Bool :=
  match t.data.reverse with
  | ']' :: '[' :: _ :: _ => true
  | _ => false

/-- The item-type name of an array type string: the string without its
last two characters. -/
def base_type_name (t : String) : String :=
  String.mk (t.data.take (t.data.length - 2))

/-- TypeBinder.create_value from parser.py: an array type string builds
an ArrayValue over the binding of its base name, any other type string
instantiates its binding directly; a missing binding raises KeyError. -/
def create_value (b : Binding) (t : String) : Except PyErr CreatedValue :=
  if is_array_type_name t then
    match binding_lookup b (base_type_name t) with
    | some c => .ok (.array c)
    | none => .error (.keyErr (base_type_name t))
  else
    match binding_lookup b t with
    | some c => .ok (.scalar c)
    | none => .error (.keyErr t)

/-- Modelled from the spec: the Status enumeration of the runner
protocol; the implementation module is not under src/.  The closed set
of verdicts of section 3 of the spec. -/
inductive Status : Type where
  | ok
  | runFail
  | timeLimit
  | idleLimit
  | memoryLimit
  | runtimeError
deriving DecidableEq, Repr

/-- Modelled from the spec: the wire names of the Status members; ok is
pinned by test_runners.py, the rest follow the hyphenated wire-key
convention of section 4.1. -/
def status_of_wire : String → Option Status
  | "ok" => some .ok
  | "run-fail" => some .runFail
  | "time-limit" => some .timeLimit
  | "idle-limit" => some .idleLimit
  | "memory-limit" => some .memoryLimit
  | "runtime-error" => some .runtimeError
  | _ => none

/-- Modelled from the spec: the raw termination datum the Status
Classifier of section 4.4 consumes — whether the launch succeeded,
which limits were breached, and the child's exit code and signal. -/
structure TermData : Type where
  launch_ok : Bool
  mem_breach : Bool
  cpu_breach : Bool
  idle_breach : Bool
  exitcode : Int
  signal : Int
deriving DecidableEq, Repr

/-- Modelled from the spec: the Status Classifier of section 4.4; the
implementation module is not under src/.  A pure function applying the
documented priority order: launch failure, then memory, then CPU time,
then idle time, then abnormal exit or signal, then ok. -/
def classify_status (d : TermData) : Status :=
  if d.launch_ok = false then .runFail
  else if d.mem_breach then .memoryLimit
  else if d.cpu_breach then .timeLimit
  else if d.idle_breach then .idleLimit
  else if d.exitcode ≠ 0 ∨ d.signal ≠ 0 then .runtimeError
  else .ok

/-- Modelled from the spec: the JSON value universe the wire messages of
section 4.1 draw from — numbers (exact rationals standing for the JSON
numerals), strings, booleans, null, string arrays and string-to-string
objects. -/
inductive JVal : Type where
  | num (q : ℚ)
  | str (s : String)
  | bool (b : Bool)
  | null
  | arr (xs : List String)
  | obj (kvs : List (String × String))
deriving DecidableEq, Repr

/-- A wire message: a JSON object as an ordered key-value list. -/
abbrev WireMsg : Type := List (String × JVal)

/-- Key lookup in a wire message; the first occurrence wins. -/
def wlookup : WireMsg → String → Option JVal
  | [], _ => none
  | (k, v) :: rest, key => if k = key then some v else wlookup rest key

/-- Modelled from the spec: the ProtocolError of section 4.1, with its
malformed-value kind, plus the required-key-absent protocol error of
section 6.  In the source it is a ValueError subclass, which is what
test_runners.py catches. -/
inductive ProtocolError : Type where
  | malformedValue (key : String)
  | missingKey (key : String)
deriving DecidableEq, Repr

/-- Modelled from the spec: the Results record of section 3; the
implementation module is not under src/.  Measured times and memory are
exact rationals standing for the real-valued measurements. -/
structure Results : Type where
  time : ℚ
  clock_time : ℚ
  memory : ℚ
  exitcode : Int
  signal : Int
  signal_name : String
  status : Status
  comment : String
deriving DecidableEq, Repr

/-- Conversion of a wire value to a real number: only a JSON number
converts; section 4.1 makes decode fail on anything else where a real
is required. -/
def to_real : JVal → Option ℚ
  | .num q => some q
  | _ => none

/-- A required real-valued field of a Results message: a missing key or
an unconvertible value is a protocol error. -/
def get_real (m : WireMsg) (k : String) : Except ProtocolError ℚ :=
  match wlookup m k with
  | none => .error (.missingKey k)
  | some v =>
      match to_real v with
      | some q => .ok q
      | none => .error (.malformedValue k)

/-- A required strictly-integral field of a Results message: a numeric
value with a fractional part is a malformed value, never truncated, per
sections 3 and 4.1. -/
def get_int_strict (m : WireMsg) (k : String) : Except ProtocolError Int :=
  match wlookup m k with
  | none => .error (.missingKey k)
  | some (.num q) => if q.den = 1 then .ok q.num else .error (.malformedValue k)
  | some _ => .error (.malformedValue k)

/-- The optional signal field of a Results message: absent defaults to
0; a present value must be strictly integral. -/
def get_signal (m : WireMsg) : Except ProtocolError Int :=
  match wlookup m "signal" with
  | none => .ok 0
  | some (.num q) =>
      if q.den = 1 then .ok q.num else .error (.malformedValue "signal")
  | some _ => .error (.malformedValue "signal")

/-- The status field of a Results message: only a string naming a known
Status member is accepted. -/
def status_of_jval : JVal → Option Status
  | .str s => status_of_wire s
  | _ => none

/-- The required status field of a Results message. -/
def get_status (m : WireMsg) : Except ProtocolError Status :=
  match wlookup m "status" with
  | none => .error (.missingKey "status")
  | some v =>
      match status_of_jval v with
      | some st => .ok st
      | none => .error (.malformedValue "status")

/-- The optional comment field of a Results message: absent defaults to
the empty string; a present value must be a string. -/
def get_comment (m : WireMsg) : Except ProtocolError String :=
  match wlookup m "comment" with
  | none => .ok ""
  | some (.str s) => .ok s
  | some _ => .error (.malformedValue "comment")

/-- Modelled from the spec: json_to_results of section 4.1; the
implementation module is not under src/.  Reads the required keys time,
clock-time, memory, exitcode and status and the optional keys signal
and comment, fails closed on the first malformed or missing value, and
fills signal_name with the empty string — the codec never populates it.
The Except result type makes decode all-or-nothing: an error carries no
partial Results. -/
def json_to_results (m : WireMsg) : Except ProtocolError Results :=
  match get_real m "time" with
  | .error e => .error e
  | .ok time =>
    match get_real m "clock-time" with
    | .error e => .error e
    | .ok clock =>
      match get_real m "memory" with
      | .error e => .error e
      | .ok mem =>
        match get_int_strict m "exitcode" with
        | .error e => .error e
        | .ok ec =>
          match get_signal m with
          | .error e => .error e
          | .ok sg =>
            match get_status m with
            | .error e => .error e
            | .ok st =>
              match get_comment m with
              | .error e => .error e
              | .ok cm => .ok ⟨time, clock, mem, ec, sg, "", st, cm⟩

/-- Modelled from the spec: the Parameters record of section 3; the
implementation module is not under src/.  Optional fields are Option,
limits are exact rationals standing for the real-valued settings. -/
structure Parameters : Type where
  time_limit : Option ℚ
  idle_limit : Option ℚ
  memory_limit : ℚ
  executable : String
  clear_env : Bool
  env : List (String × String)
  args : List String
  working_dir : String
  stdin_redir : Option String
  stdout_redir : Option String
  stderr_redir : Option String
  isolate_dir : Option String
  isolate_policy : Option String
deriving DecidableEq, Repr

/-- Modelled from the spec: the injected default-idle-limit policy of
section 4.1, a function of the time limit; only the sample mapping
time_limit 1.0 to idle-limit 3.5 is documented (test_runners.py), and
this linear form realizes it. -/
def idle_default_policy (t : ℚ) : ℚ := 7 * t / 2

/-- An optional number on the wire: null when unset. -/
def opt_num : Option ℚ → JVal
  | some q => .num q
  | none => .null

/-- An optional string on the wire: null when unset. -/
def opt_str : Option String → JVal
  | some s => .str s
  | none => .null

/-- Modelled from the spec: parameters_to_json of section 4.1; the
implementation module is not under src/.  Emits the fixed wire keys in
the order test_runners.py observes; an absent idle_limit is resolved
through the default policy applied to the time limit, an absent
isolate_dir encodes the working directory, an absent isolate_policy
encodes the string normal. -/
def parameters_to_json (p : Parameters) : WireMsg :=
  [("time-limit", opt_num p.time_limit),
   ("idle-limit",
     match p.idle_limit with
     | some q => .num q
     | none =>
       match p.time_limit with
       | some t => .num (idle_default_policy t)
       | none => .null),
   ("memory-limit", .num p.memory_limit),
   ("executable", .str p.executable),
   ("clear-env", .bool p.clear_env),
   ("env", .obj p.env),
   ("args", .arr p.args),
   ("working-dir", .str p.working_dir),
   ("stdin-redir", opt_str p.stdin_redir),
   ("stdout-redir", opt_str p.stdout_redir),
   ("stderr-redir", opt_str p.stderr_redir),
   ("isolate-dir", .str (match p.isolate_dir with
     | some d => d
     | none => p.working_dir)),
   ("isolate-policy", .str (match p.isolate_policy with
     | some s => s
     | none => "normal"))]

/-- A required optional-number field of a Parameters message: null
decodes to unset, a number to set; anything else is malformed. -/
def get_opt_real (m : WireMsg) (k : String) :
    Except ProtocolError (Option ℚ) :=
  match wlookup m k with
  | none => .error (.missingKey k)
  | some .null => .ok none
  | some (.num q) => .ok (some q)
  | some _ => .error (.malformedValue k)

/-- A required string field of a Parameters message. -/
def get_str (m : WireMsg) (k : String) : Except ProtocolError String :=
  match wlookup m k with
  | none => .error (.missingKey k)
  | some (.str s) => .ok s
  | some _ => .error (.malformedValue k)

/-- A required optional-string field of a Parameters message: null
decodes to unset. -/
def get_opt_str (m : WireMsg) (k : String) :
    Except ProtocolError (Option String) :=
  match wlookup m k with
  | none => .error (.missingKey k)
  | some .null => .ok none
  | some (.str s) => .ok (some s)
  | some _ => .error (.malformedValue k)

/-- A required boolean field of a Parameters message. -/
def get_bool (m : WireMsg) (k : String) : Except ProtocolError Bool :=
  match wlookup m k with
  | none => .error (.missingKey k)
  | some (.bool b) => .ok b
  | some _ => .error (.malformedValue k)

/-- A required string-array field of a Parameters message. -/
def get_str_list (m : WireMsg) (k : String) :
    Except ProtocolError (List String) :=
  match wlookup m k with
  | none => .error (.missingKey k)
  | some (.arr xs) => .ok xs
  | some _ => .error (.malformedValue k)

/-- A required string-object field of a Parameters message. -/
def get_str_map (m : WireMsg) (k : String) :
    Except ProtocolError (List (String × String)) :=
  match wlookup m k with
  | none => .error (.missingKey k)
  | some (.obj kvs) => .ok kvs
  | some _ => .error (.malformedValue k)

/-- Modelled from the spec: the decode direction of the Parameters
round-trip property of section 8; no decoder for Parameters is under
src/.  Reads every wire key of section 4.1 back into a Parameters; the
isolate keys always carry strings after encoding, so they decode to set
fields. -/
def json_to_parameters (m : WireMsg) : Except ProtocolError Parameters :=
  match get_opt_real m "time-limit" with
  | .error e => .error e
  | .ok tl =>
    match get_opt_real m "idle-limit" with
    | .error e => .error e
    | .ok il =>
      match get_real m "memory-limit" with
      | .error e => .error e
      | .ok ml =>
        match get_str m "executable" with
        | .error e => .error e
        | .ok ex =>
          match get_bool m "clear-env" with
          | .error e => .error e
          | .ok ce =>
            match get_str_map m "env" with
            | .error e => .error e
            | .ok ev =>
              match get_str_list m "args" with
              | .error e => .error e
              | .ok ar =>
                match get_str m "working-dir" with
                | .error e => .error e
                | .ok wd =>
                  match get_opt_str m "stdin-redir" with
                  | .error e => .error e
                  | .ok si =>
                    match get_opt_str m "stdout-redir" with
                    | .error e => .error e
                    | .ok so =>
                      match get_opt_str m "stderr-redir" with
                      | .error e => .error e
                      | .ok se =>
                        match get_str m "isolate-dir" with
                        | .error e => .error e
                        | .ok idir =>
                          match get_str m "isolate-policy" with
                          | .error e => .error e
                          | .ok ipol =>
                            .ok ⟨tl, il, ml, ex, ce, ev, ar, wd,
                                 si, so, se, some idir, some ipol⟩

/-- An environment: an association list of variable names to values. -/
abbrev EnvMap : Type := List (String × String)

/-- Environment variable lookup; the first entry for a name wins. -/
def env_lookup : EnvMap → String → Option String
  | [], _ => none
  | (k, v) :: rest, key => if k = key then some v else env_lookup rest key

/-- Removal of a variable from an environment mapping, as the caller of
the runner does between runs when it pops a key from env. -/
def env_remove (m : EnvMap) (k : String) : EnvMap :=
  m.filter (fun e => e.1 != k)

/-- Modelled from the spec: the child-environment construction of the
Process Supervisor, section 4.2; the implementation module is not under
src/.  With clear_env the child sees only the env entries; otherwise the
host environment is the baseline and env entries shadow it.  A pure
function of the current host environment and env, so nothing from an
earlier run can be cached. -/
def build_child_env (clear_env : Bool) (host env : EnvMap) (k : String) :
    Option String :=
  if clear_env then env_lookup env k
  else
    match env_lookup env k with
    | some v => some v
    | none => env_lookup host k

/-- Modelled from the spec: what the Resource Monitor reports when the
child did launch — which limits were breached first, the exit status,
and the measured usage (sections 4.2 and 4.3). -/
structure MonitorOutcome : Type where
  mem_breach : Bool
  cpu_breach : Bool
  idle_breach : Bool
  exitcode : Int
  signal : Int
  time : ℚ
  clock_time : ℚ
  memory : ℚ
deriving DecidableEq, Repr

/-- Modelled from the spec: the launch step of the Process Supervisor,
section 4.2 — either the process could not be created at all, or it ran
under the Resource Monitor to the given outcome. -/
inductive LaunchResult : Type where
  | failure (comment : String)
  | success (d : MonitorOutcome)
deriving DecidableEq, Repr

/-- Modelled from the spec: the run path of the Process Supervisor and
Runner Facade, sections 4.2 and 4.5; the implementation module is not
under src/.  Returns the Results of the run together with whether the
Resource Monitor was started.  A failed launch yields a RUN_FAIL result
directly — run returns normally rather than raising — and the monitor
never starts; a successful launch starts the monitor and classifies the
termination datum. -/
def supervisor_run : LaunchResult → Results × Bool
  | .failure c =>
      ({ time := 0, clock_time := 0, memory := 0, exitcode := -1,
         signal := 0, signal_name := "", status := .runFail,
         comment := c }, false)
  | .success d =>
      ({ time := d.time, clock_time := d.clock_time, memory := d.memory,
         exitcode := d.exitcode, signal := d.signal, signal_name := "",
         status := classify_status
           ⟨true, d.mem_breach, d.cpu_breach, d.idle_breach,
            d.exitcode, d.signal⟩,
         comment := "" }, true)

instance {ε α : Type} [DecidableEq ε] [DecidableEq α] :
    DecidableEq (Except ε α) := fun x y =>
  match x, y with
  | .error a, .error b =>
      if h : a = b then .isTrue (by rw [h])
      else .isFalse (by intro hh; cases hh; exact h rfl)
  | .error _, .ok _ => .isFalse (by intro hh; cases hh)
  | .ok _, .error _ => .isFalse (by intro hh; cases hh)
  | .ok a, .ok b =>
      if h : a = b then .isTrue (by rw [h])
      else .isFalse (by intro hh; cases hh; exact h rfl)

/-- The Parameters value of test_parameters_to_json in test_runners.py:
idle_limit, isolate_dir and isolate_policy are left unset. -/
def p_sample : Parameters :=
  ⟨some 1, none, 256, "exe", false, [("ENV1", "4"), ("ENV2", "5")],
   ["arg1", "arg2"], "work", some "in.txt", some "out.txt", some "err.txt",
   none, none⟩

/-- A Parameters value with every optional field set. -/
def p_all_set : Parameters :=
  ⟨some 1, some 2, 256, "exe", false, [("ENV1", "4")], ["a"], "work",
   some "in.txt", some "out.txt", some "err.txt", some "iso", some "strict"⟩

/-- The minimal well-formed Results message of test_results_from_json in
test_runners.py: only the required keys are present. -/
def m_min : WireMsg :=
  [("time", .num 1), ("clock-time", .num 2), ("memory", .num 3),
   ("exitcode", .num 10), ("status", .str "ok")]

/-- The Results that decoding m_min must produce. -/
def r_min : Results := ⟨1, 2, 3, 10, 0, "", .ok, ""⟩

/-- The rational six fifths, built in lowest terms: a numeric wire value
with a fractional part. -/
def q_frac : ℚ := ⟨6, 5, by decide, by decide⟩

/-- Removing a variable from an environment mapping really removes it:
the lookup of the removed key finds nothing. -/
theorem env_remove_lookup (m : EnvMap) (k : String) :
    env_lookup (env_remove m k) k = none := by
  induction m with
  | nil => rfl
  | cons e rest ih =>
      unfold env_remove at *
      rw [List.filter_cons]
      by_cases h : e.1 = k
      · simp [h, ih]
      · simp [h, env_lookup, ih]

/-- Inversion of a successful Results decode: every field getter
succeeded with the corresponding field of the result, and signal_name is
the empty string. -/
theorem json_to_results_ok_inv (m : WireMsg) (r : Results)
    (h : json_to_results m = .ok r) :
    get_real m "time" = .ok r.time ∧
    get_real m "clock-time" = .ok r.clock_time ∧
    get_real m "memory" = .ok r.memory ∧
    get_int_strict m "exitcode" = .ok r.exitcode ∧
    get_signal m = .ok r.signal ∧
    get_status m = .ok r.status ∧
    get_comment m = .ok r.comment ∧
    r.signal_name = "" := by
  unfold json_to_results at h
  cases h1 : get_real m "time" with
  | error e => rw [h1] at h; exact absurd h (by simp)
  | ok time =>
    rw [h1] at h
    cases h2 : get_real m "clock-time" with
    | error e => rw [h2] at h; exact absurd h (by simp)
    | ok clock =>
      rw [h2] at h
      cases h3 : get_real m "memory" with
      | error e => rw [h3] at h; exact absurd h (by simp)
      | ok mem =>
        rw [h3] at h
        cases h4 : get_int_strict m "exitcode" with
        | error e => rw [h4] at h; exact absurd h (by simp)
        | ok ec =>
          rw [h4] at h
          cases h5 : get_signal m with
          | error e => rw [h5] at h; exact absurd h (by simp)
          | ok sg =>
            rw [h5] at h
            cases h6 : get_status m with
            | error e => rw [h6] at h; exact absurd h (by simp)
            | ok st =>
              rw [h6] at h
              cases h7 : get_comment m with
              | error e => rw [h7] at h; exact absurd h (by simp)
              | ok cm =>
                rw [h7] at h
                injection h with h'
                subst h'
                exact ⟨rfl, rfl, rfl, rfl, rfl, rfl, rfl, rfl⟩

/-- Claim C1: the Status classifier assigns exactly one Status to every
raw termination datum, with launch failure first, then memory, CPU-time
and idle-time breaches in that order, then an abnormal exit code or
signal, then OK — so any limit breach takes precedence over the
child's own exit status (the fifth and sixth conjuncts apply whatever
exit code and signal the datum carries in the breach cases above them). -/
theorem C1_status_classifier_priority (d : TermData) :
    (d.launch_ok = false → classify_status d = .runFail)
  ∧ (d.launch_ok = true → d.mem_breach = true →
      classify_status d = .memoryLimit)
  ∧ (d.launch_ok = true → d.mem_breach = false → d.cpu_breach = true →
      classify_status d = .timeLimit)
  ∧ (d.launch_ok = true → d.mem_breach = false → d.cpu_breach = false →
      d.idle_breach = true → classify_status d = .idleLimit)
  ∧ (d.launch_ok = true → d.mem_breach = false → d.cpu_breach = false →
      d.idle_breach = false → (d.exitcode ≠ 0 ∨ d.signal ≠ 0) →
      classify_status d = .runtimeError)
  ∧ (d.launch_ok = true → d.mem_breach = false → d.cpu_breach = false →
      d.idle_breach = false → d.exitcode = 0 → d.signal = 0 →
      classify_status d = .ok) := by
  obtain ⟨lk, mb, cb, ib, ec, sg⟩ := d
  refine ⟨?_, ?_, ?_, ?_, ?_, ?_⟩ <;> intros <;> subst_vars <;>
    simp_all [classify_status]

/-- Witness for C1: a run that breached the memory and CPU-time limits
and exited with code 7 on signal 9 classifies as MEMORY_LIMIT — the
breach outranks the exit status. -/
theorem C1_status_classifier_priority_witness :
    classify_status ⟨true, true, true, false, 7, 9⟩ = .memoryLimit :=
  (C1_status_classifier_priority ⟨true, true, true, false, 7, 9⟩).2.1 rfl rfl

/-- Claim C2: decoding a Results message fails (returning an error and
hence no Results at all) whenever time, clock-time or memory holds a
value not convertible to a real number, whenever exitcode or signal
holds a numeric value with a fractional part, whenever status is not a
known Status member, or whenever comment is present but not a string. -/
theorem C2_results_decode_rejects_malformed (m : WireMsg) :
    (∀ v, wlookup m "time" = some v → to_real v = none →
      isErrB (json_to_results m) = true)
  ∧ (∀ v, wlookup m "clock-time" = some v → to_real v = none →
      isErrB (json_to_results m) = true)
  ∧ (∀ v, wlookup m "memory" = some v → to_real v = none →
      isErrB (json_to_results m) = true)
  ∧ (∀ q : ℚ, wlookup m "exitcode" = some (.num q) → q.den ≠ 1 →
      isErrB (json_to_results m) = true)
  ∧ (∀ q : ℚ, wlookup m "signal" = some (.num q) → q.den ≠ 1 →
      isErrB (json_to_results m) = true)
  ∧ (∀ v, wlookup m "status" = some v → status_of_jval v = none →
      isErrB (json_to_results m) = true)
  ∧ (∀ v, wlookup m "comment" = some v → (∀ s, v ≠ .str s) →
      isErrB (json_to_results m) = true) := by
  refine ⟨?_, ?_, ?_, ?_, ?_, ?_, ?_⟩
  · intro v hv hnv
    cases hres : json_to_results m with
    | error e => rfl
    | ok r =>
        have h1 := (json_to_results_ok_inv m r hres).1
        simp [get_real, hv, hnv] at h1
  · intro v hv hnv
    cases hres : json_to_results m with
    | error e => rfl
    | ok r =>
        have h2 := (json_to_results_ok_inv m r hres).2.1
        simp [get_real, hv, hnv] at h2
  · intro v hv hnv
    cases hres : json_to_results m with
    | error e => rfl
    | ok r =>
        have h3 := (json_to_results_ok_inv m r hres).2.2.1
        simp [get_real, hv, hnv] at h3
  · intro q hq hden
    cases hres : json_to_results m with
    | error e => rfl
    | ok r =>
        have h4 := (json_to_results_ok_inv m r hres).2.2.2.1
        simp [get_int_strict, hq, hden] at h4
  · intro q hq hden
    cases hres : json_to_results m with
    | error e => rfl
    | ok r =>
        have h5 := (json_to_results_ok_inv m r hres).2.2.2.2.1
        simp [get_signal, hq, hden] at h5
  · intro v hv hsv
    cases hres : json_to_results m with
    | error e => rfl
    | ok r =>
        have h6 := (json_to_results_ok_inv m r hres).2.2.2.2.2.1
        simp [get_status, hv, hsv] at h6
  · intro v hv hns
    cases hres : json_to_results m with
    | error e => rfl
    | ok r =>
        have h7 := (json_to_results_ok_inv m r hres).2.2.2.2.2.2.1
        cases v with
        | str s => exact absurd rfl (hns s)
        | num q => simp [get_comment, hv] at h7
        | bool b => simp [get_comment, hv] at h7
        | null => simp [get_comment, hv] at h7
        | arr xs => simp [get_comment, hv] at h7
        | obj kvs => simp [get_comment, hv] at h7

/-- Witness for C2: an otherwise well-formed message whose exitcode is
six fifths — numerically convertible but with a fractional part — fails
to decode. -/
theorem C2_results_decode_rejects_malformed_witness :
    isErrB (json_to_results
      [("time", .num 1), ("clock-time", .num 2), ("memory", .num 3),
       ("exitcode", .num q_frac), ("status", .str "ok")]) = true :=
  (C2_results_decode_rejects_malformed _).2.2.2.1 q_frac rfl (by decide)

/-- Claim C3: encoding substitutes deterministic defaults for absent
optional fields — an unset idle_limit encodes the default-policy value
of the time limit, and that policy maps time_limit 1 to 3.5; an unset
isolate_dir encodes the working directory; an unset isolate_policy
encodes the string normal. -/
theorem C3_encode_defaults (p : Parameters) (t : ℚ)
    (h1 : p.idle_limit = none) (h2 : p.time_limit = some t) :
    wlookup (parameters_to_json p) "idle-limit" =
      some (.num (idle_default_policy t))
  ∧ idle_default_policy 1 = 7 / 2
  ∧ (p.isolate_dir = none →
      wlookup (parameters_to_json p) "isolate-dir" =
        some (.str p.working_dir))
  ∧ (p.isolate_policy = none →
      wlookup (parameters_to_json p) "isolate-policy" =
        some (.str "normal")) := by
  refine ⟨?_, by norm_num [idle_default_policy], ?_, ?_⟩
  · simp only [parameters_to_json, h1, h2]
    rfl
  · intro h3
    simp only [parameters_to_json, h3]
    rfl
  · intro h4
    simp only [parameters_to_json, h4]
    rfl

/-- Witness for C3: the test fixture p_sample (time_limit 1, the three
optional fields unset) encodes idle-limit 3.5, isolate-dir equal to the
working directory and isolate-policy normal. -/
theorem C3_encode_defaults_witness :
    wlookup (parameters_to_json p_sample) "idle-limit" =
      some (.num (idle_default_policy 1))
  ∧ idle_default_policy 1 = 7 / 2
  ∧ wlookup (parameters_to_json p_sample) "isolate-dir" =
      some (.str p_sample.working_dir)
  ∧ wlookup (parameters_to_json p_sample) "isolate-policy" =
      some (.str "normal") := by
  have h := C3_encode_defaults p_sample 1 rfl rfl
  exact ⟨h.1, h.2.1, h.2.2.1 rfl, h.2.2.2 rfl⟩

/-- Claim C4: with clear_env the child environment is exactly the env
entries; without it the host environment is overlaid with env, an env
entry shadowing a same-named host variable; and because the environment
is rebuilt from the current env on every run, removing a key makes the
lookup observe the inherited host value again, never a cached prior
override. -/
theorem C4_child_environment (host env : EnvMap) (k : String) :
    (build_child_env true host env k = env_lookup env k)
  ∧ (∀ v, env_lookup env k = some v → build_child_env false host env k = some v)
  ∧ (env_lookup env k = none →
      build_child_env false host env k = env_lookup host k)
  ∧ (build_child_env false host (env_remove env k) k = env_lookup host k) := by
  refine ⟨rfl, ?_, ?_, ?_⟩
  · intro v hv; simp [build_child_env, hv]
  · intro hn; simp [build_child_env, hn]
  · simp [build_child_env, env_remove_lookup]

/-- Witness for C4: with the host defining HELLO as world and env
defining it as 42, the child sees 42; after removing HELLO from env the
child sees world again. -/
theorem C4_child_environment_witness :
    build_child_env false [("HELLO", "world")] [("HELLO", "42")] "HELLO" =
      some "42"
  ∧ build_child_env false [("HELLO", "world")]
      (env_remove [("HELLO", "42")] "HELLO") "HELLO" = some "world" :=
  ⟨(C4_child_environment [("HELLO", "world")] [("HELLO", "42")] "HELLO").2.1
     "42" rfl,
   ((C4_child_environment [("HELLO", "world")] [("HELLO", "42")]
     "HELLO").2.2.2).trans rfl⟩

/-- Claim C5: a run whose target cannot be launched returns Results
normally (supervisor_run is a total function into Results, not an error
channel) with status RUN_FAIL, and the Resource Monitor is never
started for such a run; by contrast every launched run starts the
monitor. -/
theorem C5_launch_failure_run_fail (c : String) :
    (supervisor_run (.failure c)).1.status = .runFail
  ∧ (supervisor_run (.failure c)).2 = false
  ∧ (∀ d, (supervisor_run (.success d)).2 = true) :=
  ⟨rfl, rfl, fun _ => rfl⟩

/-- Claim C6: a successful Results decode fills a missing signal key
with 0 and a missing comment key with the empty string, and always sets
signal_name to the empty string whatever the payload held. -/
theorem C6_results_decode_fills_defaults (m : WireMsg) (r : Results)
    (h : json_to_results m = .ok r) :
    r.signal_name = ""
  ∧ (wlookup m "signal" = none → r.signal = 0)
  ∧ (wlookup m "comment" = none → r.comment = "") := by
  obtain ⟨-, -, -, -, h5, -, h7, h8⟩ := json_to_results_ok_inv m r h
  refine ⟨h8, ?_, ?_⟩
  · intro hs
    simp [get_signal, hs] at h5
    exact h5.symm
  · intro hc
    simp [get_comment, hc] at h7
    exact h7.symm

/-- Witness for C6: the minimal message m_min, which carries no signal
and no comment key, decodes to r_min with signal 0, comment empty and
signal_name empty. -/
theorem C6_results_decode_fills_defaults_witness :
    r_min.signal_name = "" ∧ r_min.signal = 0 ∧ r_min.comment = "" := by
  have h := C6_results_decode_fills_defaults m_min r_min rfl
  exact ⟨h.1, h.2.1 rfl, h.2.2 rfl⟩

/-- Counterexample to C7 as stated: for the test fixture p_sample,
whose idle_limit, isolate_dir and isolate_policy are unset — a
combination the encoder explicitly supports — encoding and decoding do
not reproduce the same field values, because encoding substitutes the
defaults (idle-limit 3.5, isolate-dir work, isolate-policy normal) and
the unset state is lost. -/
theorem C7_roundtrip_counterexample :
    json_to_parameters (parameters_to_json p_sample) ≠ .ok p_sample := by
  intro h
  have h2 : json_to_parameters (parameters_to_json p_sample) =
      .ok { p_sample with
            idle_limit := some (idle_default_policy 1),
            isolate_dir := some "work",
            isolate_policy := some "normal" } := rfl
  have h3 := h2.symm.trans h
  injection h3 with h4
  have h5 := congrArg Parameters.idle_limit h4
  simp [p_sample] at h5

/-- Claim C7 as amended: for every Parameters whose defaultable optional
fields (idle_limit, isolate_dir, isolate_policy) are all set, encoding
to a wire message and decoding back reproduces exactly the same field
values. -/
theorem C7_roundtrip_all_fields_set (p : Parameters)
    (h1 : ∃ q, p.idle_limit = some q)
    (h2 : ∃ d, p.isolate_dir = some d)
    (h3 : ∃ s, p.isolate_policy = some s) :
    json_to_parameters (parameters_to_json p) = .ok p := by
  obtain ⟨tl, il, ml, ex, ce, ev, ar, wd, si, so, se, idir, ipol⟩ := p
  dsimp only at h1 h2 h3
  obtain ⟨q, rfl⟩ := h1
  obtain ⟨d, rfl⟩ := h2
  obtain ⟨s, rfl⟩ := h3
  cases tl <;> cases si <;> cases so <;> cases se <;> rfl

/-- Witness for C7 as amended: the all-fields-set value p_all_set
round-trips exactly. -/
theorem C7_roundtrip_all_fields_set_witness :
    json_to_parameters (parameters_to_json p_all_set) = .ok p_all_set :=
  C7_roundtrip_all_fields_set p_all_set ⟨2, rfl⟩ ⟨"iso", rfl⟩ ⟨"strict", rfl⟩

/-- Counterexample to C8 as stated: the binding table is the one
class-level dict every TypeBinder instance shares, so after two binders
are constructed, binding the type named custom through one of them
changes what create_value resolves for the other — the bindings visible
to the other instance did change. -/
theorem C8_per_instance_counterexample :
    create_value (bind_type (init_type_binder (init_type_binder []))
        ⟨"custom"⟩) "custom"
      ≠ create_value (init_type_binder (init_type_binder [])) "custom" := by
  decide

/-- Claim C8 as amended: the TypeBinder binding table is class-level
shared mutable state — a type bound through any instance lands in the
one shared table, where create_value on every instance immediately
resolves it. -/
theorem C8_shared_binding_table (b : Binding) (cls : ValueClass)
    (h : is_array_type_name cls.type_name = false) :
    create_value (bind_type b cls) cls.type_name = .ok (.scalar cls) := by
  simp [create_value, h, bind_type, binding_lookup]

/-- Witness for C8 as amended: binding the scalar type named custom into
the shared table of a freshly constructed binder makes create_value
return it. -/
theorem C8_shared_binding_table_witness :
    create_value (bind_type (init_type_binder []) ⟨"custom"⟩) "custom" =
      .ok (.scalar ⟨"custom"⟩) :=
  C8_shared_binding_table (init_type_binder []) ⟨"custom"⟩ (by decide)

/-- Claim C9 (a code bug): BoolValue.load on a line whose next word is
true or false consumes the word and sets the value, but returns Python
None (the bare return in BoolValue._do_load) instead of the position
after the word; IntValue.load on comparable input returns that position,
as the claim expects of every scalar loader. -/
theorem C9_bool_load_returns_no_position :
    bool_load "  true  ".data 0 = .ok (none, some true)
  ∧ bool_load "  false".data 0 = .ok (none, some false)
  ∧ int_load "   42   ".data 0 = .ok (5, some 42) := by
  decide

/-- Claim C10 (a code bug): saving the empty int array produces a lone
closing bracket — slicing off the last two characters of the single-char
opening bracket erases it — and loading that text fails expecting an
opening bracket, so the empty list does not round-trip; yet the loader
itself accepts the two-char empty array text, and nonempty arrays
round-trip as the claim says. -/
theorem C10_empty_array_save_breaks_roundtrip :
    array_save_int [] = .ok "]"
  ∧ isErrB (array_load_int "]".data 0) = true
  ∧ array_load_int "[]".data 0 = .ok (2, some [])
  ∧ array_save_int [some 1, some 2, some 3] = .ok "[1, 2, 3]"
  ∧ array_load_int "[1, 2, 3]".data 0 =
      .ok (9, some [some 1, some 2, some 3]) := by
  decide
